
import Mathlib

/-!
Shallow embedding of the FASTQ analysis core of `fastq-agent-system`:
the read/metrics data model (`models/fastq_data.py`), quality
classification, flag detection, recommendation generation and narrative
fallback (`agents/reporter.py`).  Python floats are modelled as exact
rationals, Python ints as `Int`/`Nat`, Python dicts (insertion-ordered)
as association lists updated in place.
-/

/-- One sequencing read: `FASTQRead` from `models/fastq_data.py`.
The sequence is a list of characters, quality scores are the
non-negative Phred integers the data model prescribes. -/

structure FASTQRead where
  identifier : String
  sequence : List Char
  quality_scores : List Nat
deriving DecidableEq, Repr

/-- `statistics.mean`, which raises `StatisticsError` on an empty list:
modelled as an `Option`, `none` standing for the exception. -/
def statisticsMean (xs : List ℚ) : Option ℚ :=
  if xs = [] then none else some (xs.sum / xs.length)

/-- Python `min` over a list of ints, which raises on an empty list. -/
def listMinOpt (xs : List Nat) : Option Nat :=
  match xs with
  | [] => none
  | x :: rest => some (rest.foldl Nat.min x)

/-- Python `max` over a list of ints, which raises on an empty list. -/
def listMaxOpt (xs : List Nat) : Option Nat :=
  match xs with
  | [] => none
  | x :: rest => some (rest.foldl Nat.max x)

/-- `FASTQRead.length`: length of the sequence. -/
def FASTQRead.length (r : FASTQRead) : Nat :=
  r.sequence.length

/-- `FASTQRead.average_quality`:
`statistics.mean(self.quality_scores) if self.quality_scores else 0.0`. -/
def FASTQRead.average_quality (r : FASTQRead) : ℚ :=
  if r.quality_scores = [] then 0
  else (r.quality_scores.map (Nat.cast : Nat → ℚ)).sum / (r.quality_scores.length : ℚ)

/-- `FASTQRead.min_quality`:
`min(self.quality_scores) if self.quality_scores else 0`. -/
def FASTQRead.min_quality (r : FASTQRead) : Nat :=
  match r.quality_scores with
  | [] => 0
  | x :: rest => rest.foldl Nat.min x

/-- `FASTQRead.gc_content`: guard on an empty sequence, then
`self.sequence.upper().count("G") + self.sequence.upper().count("C")`
over the length, times 100. -/
def FASTQRead.gc_content (r : FASTQRead) : ℚ :=
  if r.sequence = [] then 0
  else
    let upper := r.sequence.map Char.toUpper
    let gc_count := upper.count 'G' + upper.count 'C'
    ((gc_count : ℚ) / r.sequence.length) * 100

/-- `FASTQMetrics` from `models/fastq_data.py`.  Counts are naturals,
extremal lengths Python ints, rates rationals; the two distributions
are insertion-ordered key/count maps. -/
structure FASTQMetrics where
  total_reads : Nat
  total_bases : Nat
  average_read_length : ℚ
  min_read_length : Int
  max_read_length : Int
  average_quality : ℚ
  gc_content : ℚ
  quality_distribution : List (String × Nat)
  length_distribution : List (String × Nat)
deriving DecidableEq, Repr

/-- One step of `bins[key] = bins.get(key, 0) + 1` on an
insertion-ordered dict: increment an existing key in place, or append
the key at the end with count 1. -/
def bump (m : List (String × Nat)) (k : String) : List (String × Nat) :=
  match m with
  | [] => [(k, 1)]
  | (k2, v) :: rest => if k2 = k then (k2, v + 1) :: rest else (k2, v) :: bump rest k

/-- Quality bucket label `f"{(score // 5) * 5}-{(score // 5) * 5 + 4}"`. -/
def qualityLabel (score : Nat) : String :=
  toString (score / 5 * 5) ++ "-" ++ toString (score / 5 * 5 + 4)

/-- Length bucket label `f"{(length // 50) * 50}-{(length // 50) * 50 + 49}"`. -/
def lengthLabel (n : Nat) : String :=
  toString (n / 50 * 50) ++ "-" ++ toString (n / 50 * 50 + 49)

/-- `FASTQData.calculate_metrics` from `models/fastq_data.py`. -/
def calculate_metrics (reads : List FASTQRead) : FASTQMetrics :=
  if reads = [] then
    { total_reads := 0
      total_bases := 0
      average_read_length := 0
      min_read_length := 0
      max_read_length := 0
      average_quality := 0
      gc_content := 0
      quality_distribution := []
      length_distribution := [] }
  else
    let lengths := reads.map FASTQRead.length
    let qualities := reads.map FASTQRead.average_quality
    let quality_bins := reads.foldl
      (fun m r => r.quality_scores.foldl (fun m2 s => bump m2 (qualityLabel s)) m) []
    let length_bins := lengths.foldl (fun m n => bump m (lengthLabel n)) []
    { total_reads := reads.length
      total_bases := lengths.sum
      average_read_length := (lengths.map (Nat.cast : Nat → ℚ)).sum / (lengths.length : ℚ)
      min_read_length := ((listMinOpt lengths).getD 0 : Nat)
      max_read_length := ((listMaxOpt lengths).getD 0 : Nat)
      average_quality := qualities.sum / qualities.length
      gc_content := (reads.map FASTQRead.gc_content).sum / reads.length
      quality_distribution := quality_bins
      length_distribution := length_bins }

/-- `QualityAssessment` from `models/reports.py`. -/
inductive QualityAssessment where
  | excellent
  | good
  | fair
  | poor
  | failed
deriving DecidableEq, Repr

/-- The `.value` string of a `QualityAssessment` member. -/
def QualityAssessment.value : QualityAssessment → String
  | .excellent => "excellent"
  | .good => "good"
  | .fair => "fair"
  | .poor => "poor"
  | .failed => "failed"

/-- `QualityFlags` from `models/reports.py`: six booleans, all `False`
by default. -/
structure QualityFlags where
  low_quality_reads : Bool := false
  uneven_read_lengths : Bool := false
  poor_gc_content : Bool := false
  adapter_contamination : Bool := false
  overrepresented_sequences : Bool := false
  low_complexity_regions : Bool := false
deriving DecidableEq, Repr

/-- GC class constants of `FASTQReportAgent`. -/
def GC_IDEAL_MIN : ℚ := 40

/-- GC class constants of `FASTQReportAgent`. -/
def GC_IDEAL_MAX : ℚ := 60

/-- GC class constants of `FASTQReportAgent`. -/
def GC_ACCEPTABLE_MIN : ℚ := 35

/-- GC class constants of `FASTQReportAgent`. -/
def GC_ACCEPTABLE_MAX : ℚ := 65

/-- `FASTQReportAgent.assess_gc_content`: the shared three-way GC
classifier returning a status string and the flag boolean. -/
def assess_gc_content (gc_value : ℚ) : String × Bool :=
  if GC_IDEAL_MIN ≤ gc_value ∧ gc_value ≤ GC_IDEAL_MAX then ("ideal", false)
  else if GC_ACCEPTABLE_MIN ≤ gc_value ∧ gc_value ≤ GC_ACCEPTABLE_MAX then
    ("acceptable", false)
  else ("unusual", true)

/-- `FASTQReportAgent._assess_overall_quality`. -/
def assess_overall_quality (metrics : FASTQMetrics) : QualityAssessment :=
  if 35 ≤ metrics.average_quality then .excellent
  else if 30 ≤ metrics.average_quality then .good
  else if 25 ≤ metrics.average_quality then .fair
  else if 20 ≤ metrics.average_quality then .poor
  else .failed

/-- `FASTQReportAgent._identify_quality_flags`. -/
def identify_quality_flags (metrics : FASTQMetrics) : QualityFlags :=
  { low_quality_reads := decide (metrics.average_quality < 25)
    uneven_read_lengths :=
      decide (metrics.max_read_length - metrics.min_read_length > 50)
    poor_gc_content := (assess_gc_content metrics.gc_content).2 }

/-- A value in a recommendation's `parameters` dict: an int, a string,
or a list of floats (the GC range endpoints). -/
inductive ParamValue where
  | int (n : Int)
  | str (s : String)
  | ratList (xs : List ℚ)
deriving DecidableEq, Repr

/-- `RecommendationItem` from `models/reports.py` (the `parameters`
dict as an ordered key/value list). -/
structure RecommendationItem where
  category : String
  priority : String
  action : String
  reason : String
  parameters : List (String × ParamValue)
deriving DecidableEq, Repr

/-- Round a rational to an integer, halves to even, as Python's
decimal string formatting of an exactly-represented value does. -/
def roundHalfEven (q : ℚ) : Int :=
  let f := ⌊q⌋
  let frac := q - f
  if frac < 1/2 then f
  else if 1/2 < frac then f + 1
  else if f % 2 = 0 then f else f + 1

/-- Python `f"{x:.1f}"` on an exact rational. -/
def formatFixed1 (q : ℚ) : String :=
  let n := roundHalfEven (q * 10)
  let sign := if n < 0 then "-" else ""
  let m := n.natAbs
  sign ++ toString (m / 10) ++ "." ++ toString (m % 10)

/-- Python `f"{x:.2f}"` on an exact rational. -/
def formatFixed2 (q : ℚ) : String :=
  let n := roundHalfEven (q * 100)
  let sign := if n < 0 then "-" else ""
  let m := n.natAbs
  let cents := m % 100
  let centsStr := if cents < 10 then "0" ++ toString cents else toString cents
  sign ++ toString (m / 100) ++ "." ++ centsStr

/-- Group a reversed digit list in threes, inserting commas. -/
def groupThrees : List Char → List Char
  | a :: b :: c :: d :: rest => a :: b :: c :: ',' :: groupThrees (d :: rest)
  | xs => xs

/-- Python `f"{n:,}"` on a natural number. -/
def formatComma (n : Nat) : String :=
  String.mk (groupThrees (toString n).data.reverse).reverse

/-- Truncation toward zero: Python `int()` applied to a number. -/
def ratTrunc (q : ℚ) : Int :=
  if q < 0 then -⌊-q⌋ else ⌊q⌋

/-- The "Quality Filtering" dict literal of `_generate_recommendations`
(Python `int()` truncates toward zero). -/
def qualityFilteringItem (metrics : FASTQMetrics) : RecommendationItem :=
  { category := "Quality Filtering"
    priority := "high"
    action := "Apply quality filtering"
    reason := "Average quality score (" ++ formatFixed1 metrics.average_quality
      ++ ") is below recommended threshold (>25)"
    parameters := [("min_quality", .int 20),
      ("min_length", .int (ratTrunc (metrics.average_read_length * (8/10))))] }

/-- The "Length Filtering" dict literal of `_generate_recommendations`. -/
def lengthFilteringItem (metrics : FASTQMetrics) : RecommendationItem :=
  { category := "Length Filtering"
    priority := "medium"
    action := "Apply length filtering"
    reason := "Read lengths vary significantly (" ++ toString metrics.min_read_length
      ++ "-" ++ toString metrics.max_read_length ++ " bp)"
    parameters := [("min_length", .int (metrics.min_read_length + 10)),
      ("max_length", .int (metrics.max_read_length - 10))] }

/-- The "Contamination Check" dict literal of
`_generate_recommendations`, priority decided by severity. -/
def contaminationCheckItem (metrics : FASTQMetrics) : RecommendationItem :=
  { category := "Contamination Check"
    priority :=
      if metrics.gc_content < 30 ∨ metrics.gc_content > 70 then "high" else "medium"
    action := "Screen for contamination"
    reason := "GC content (" ++ formatFixed1 metrics.gc_content
      ++ "%) is outside acceptable range (35.0-65.0%). Ideal range is 40.0-60.0%"
    parameters := [("ideal_gc_range", .ratList [GC_IDEAL_MIN, GC_IDEAL_MAX]),
      ("acceptable_gc_range", .ratList [GC_ACCEPTABLE_MIN, GC_ACCEPTABLE_MAX])] }

/-- The "Adapter Trimming" dict literal of `_generate_recommendations`. -/
def adapterTrimmingItem : RecommendationItem :=
  { category := "Adapter Trimming"
    priority := "medium"
    action := "Trim adapter sequences"
    reason := "Standard preprocessing step for Illumina sequencing data"
    parameters := [("tool", .str "trimmomatic"),
      ("adapter_file", .str "TruSeq3-PE.fa")] }

/-- `FASTQReportAgent._generate_recommendations`: the four conditional
rule blocks, appended in source order. -/
def generate_recommendations (metrics : FASTQMetrics) (flags : QualityFlags) :
    List RecommendationItem :=
  (if flags.low_quality_reads then [qualityFilteringItem metrics] else [])
  ++ (if flags.uneven_read_lengths then [lengthFilteringItem metrics] else [])
  ++ (if flags.poor_gc_content then [contaminationCheckItem metrics] else [])
  ++ (if metrics.average_read_length > 50 then [adapterTrimmingItem] else [])

/-- The structured narrative result the report carries: the
`summary`/`insights`/`suitability` dict both analysis paths return. -/
structure NarrativeResult where
  summary : String
  insights : List String
  suitability : String
deriving DecidableEq, Repr

/-- The `quality_desc` lookup of `_generate_fast_analysis`. -/
def qualityDesc : QualityAssessment → String
  | .excellent => "exceptional quality with minimal issues"
  | .good => "good quality suitable for most analyses"
  | .fair => "acceptable quality with some concerns"
  | .poor => "poor quality requiring preprocessing"
  | .failed => "failed quality checks, significant issues detected"

/-- `FASTQReportAgent._generate_fast_analysis`: the deterministic
template narrative built from metrics, assessment and the report's
recommendation list. -/
def generate_fast_analysis (metrics : FASTQMetrics) (qa : QualityAssessment)
    (recommendations : List RecommendationItem) : NarrativeResult :=
  let summary := "This FASTQ dataset contains " ++ formatComma metrics.total_reads
    ++ " reads with " ++ qualityDesc qa ++ ". Average quality score is "
    ++ formatFixed1 metrics.average_quality ++ " and GC content is "
    ++ formatFixed1 metrics.gc_content ++ "%."
  let qualityInsight :=
    if 35 ≤ metrics.average_quality then
      "Excellent base call quality indicates reliable sequencing data"
    else if 25 ≤ metrics.average_quality then
      "Good quality scores suitable for downstream analysis"
    else "Low quality scores may require filtering or trimming"
  let gc_status := (assess_gc_content metrics.gc_content).1
  let gcInsight :=
    if gc_status = "ideal" then
      "GC content within ideal range suggests no major bias"
    else if gc_status = "acceptable" then
      "GC content (" ++ formatFixed1 metrics.gc_content
        ++ "%) is acceptable but slightly outside ideal range"
    else
      "GC content (" ++ formatFixed1 metrics.gc_content
        ++ "%) outside typical range may indicate bias or contamination"
  let length_var := metrics.max_read_length - metrics.min_read_length
  let lengthInsight :=
    if length_var ≤ 5 then
      "Consistent read lengths indicate uniform library preparation"
    else if length_var ≤ 20 then
      "Moderate read length variation is within acceptable range"
    else "High read length variation may require length filtering"
  let baseInsights := [qualityInsight, gcInsight, lengthInsight]
  let insights :=
    if recommendations = [] then baseInsights
    else
      let high_priority :=
        (recommendations.filter fun r => r.priority == "high").length
      baseInsights ++
        [if 0 < high_priority then
          toString high_priority ++ " high-priority preprocessing steps recommended"
         else "Standard preprocessing steps recommended for optimal results"]
  { summary := summary
    insights := insights
    suitability := "Dataset quality rated as " ++ qa.value
      ++ " - suitable for analysis with appropriate preprocessing" }

/-- Outcome of the external narrative call in
`_generate_ai_analysis`: the call raised (or timed out), the cleaned
response failed JSON parsing, or it parsed with each of the three
expected keys optionally present. -/
inductive AICallResult where
  | exn
  | notJSON (cleaned : String)
  | parsed (cleaned : String) (summary : Option String)
      (insights : Option (List String)) (suitability : Option String)
deriving DecidableEq, Repr

/-- The `gc_description` lookup of the small-dataset branch of
`_generate_ai_analysis`. -/
def gcDescription (status : String) : String :=
  if status = "ideal" then "within ideal range"
  else if status = "acceptable" then "acceptable but outside ideal range"
  else if status = "unusual" then "outside typical range"
  else "unknown"

/-- `FASTQReportAgent._generate_ai_analysis`: the small-dataset
template branch, then the handling of the external call's outcome —
exception, malformed JSON, or parsed JSON with possibly missing keys. -/
def generate_ai_analysis (metrics : FASTQMetrics) (qa : QualityAssessment)
    (call : AICallResult) : NarrativeResult :=
  if metrics.total_reads < 10 then
    let gc_status := (assess_gc_content metrics.gc_content).1
    { summary := "Small dataset with " ++ toString metrics.total_reads
        ++ " reads. Quality assessment: " ++ qa.value ++ ". Average quality: "
        ++ formatFixed2 metrics.average_quality ++ "."
      insights := ["Dataset contains " ++ toString metrics.total_reads
          ++ " reads with average quality " ++ formatFixed2 metrics.average_quality,
        "GC content is " ++ formatFixed1 metrics.gc_content ++ "%, which is "
          ++ gcDescription gc_status,
        if metrics.max_read_length - metrics.min_read_length ≤ 10 then
          "Read lengths are consistent at "
            ++ formatFixed1 metrics.average_read_length ++ " bp"
        else "Read lengths vary from " ++ toString metrics.min_read_length
            ++ " to " ++ toString metrics.max_read_length ++ " bp"]
      suitability := "Suitable for downstream analysis based on " ++ qa.value
        ++ " quality assessment" }
  else
    match call with
    | .exn =>
      { summary := "AI analysis unavailable"
        insights := []
        suitability := "Manual review recommended" }
    | .notJSON cleaned =>
      { summary := cleaned
        insights := []
        suitability := "Analysis available in summary" }
    | .parsed cleaned summary insights suitability =>
      if summary.isSome ∧ insights.isSome ∧ suitability.isSome then
        { summary := summary.getD ""
          insights := insights.getD []
          suitability := suitability.getD "" }
      else
        { summary := summary.getD cleaned
          insights := insights.getD []
          suitability := suitability.getD "Review recommended" }

/-- Total count held by a distribution map. -/
def sumValues (m : List (String × Nat)) : Nat :=
  (m.map Prod.snd).sum

/-- Count held by a distribution map at one key (0 when absent). -/
def lookupD : List (String × Nat) → String → Nat
  | [], _ => 0
  | (k2, v) :: rest, k => if k2 = k then v else lookupD rest k

/-- A metrics record that is zero everywhere except `average_quality`. -/
def avgOnlyMetrics (q : ℚ) : FASTQMetrics :=
  { total_reads := 0, total_bases := 0, average_read_length := 0,
    min_read_length := 0, max_read_length := 0, average_quality := q,
    gc_content := 0, quality_distribution := [], length_distribution := [] }

/-- A metrics record that is zero everywhere except `gc_content`. -/
def gcOnlyMetrics (g : ℚ) : FASTQMetrics :=
  { total_reads := 0, total_bases := 0, average_read_length := 0,
    min_read_length := 0, max_read_length := 0, average_quality := 0,
    gc_content := g, quality_distribution := [], length_distribution := [] }

/-- C4 claim-side rule 1, written from the spec's words: category
"Quality Filtering", priority high, `min_quality` 20 and `min_length`
the floor of `average_read_length * 0.8` (the claim does not fix the
prose fields, which are taken from the source item). -/
def specRuleQualityFiltering (m : FASTQMetrics) : RecommendationItem :=
  { category := "Quality Filtering"
    priority := "high"
    action := (qualityFilteringItem m).action
    reason := (qualityFilteringItem m).reason
    parameters := [("min_quality", .int 20),
      ("min_length", .int ⌊m.average_read_length * (8/10)⌋)] }

/-- C4 claim-side rule 2: category "Length Filtering", priority medium,
`min_length` is `min_read_length + 10`, `max_length` is
`max_read_length - 10`. -/
def specRuleLengthFiltering (m : FASTQMetrics) : RecommendationItem :=
  { category := "Length Filtering"
    priority := "medium"
    action := (lengthFilteringItem m).action
    reason := (lengthFilteringItem m).reason
    parameters := [("min_length", .int (m.min_read_length + 10)),
      ("max_length", .int (m.max_read_length - 10))] }

/-- C4 claim-side rule 3: category "Contamination Check", priority high
when GC is below 30 or above 70 and medium otherwise, parameters
carrying the ideal band [40, 60] and the acceptable band [35, 65]. -/
def specRuleContaminationCheck (m : FASTQMetrics) : RecommendationItem :=
  { category := "Contamination Check"
    priority :=
      if m.gc_content < 30 ∨ m.gc_content > 70 then "high" else "medium"
    action := (contaminationCheckItem m).action
    reason := (contaminationCheckItem m).reason
    parameters := [("ideal_gc_range", .ratList [40, 60]),
      ("acceptable_gc_range", .ratList [35, 65])] }

/-- C4 claim-side rule 4: category "Adapter Trimming", priority medium,
fired on `average_read_length > 50` unconditionally on flags. -/
def specRuleAdapterTrimming : RecommendationItem :=
  { category := "Adapter Trimming"
    priority := "medium"
    action := adapterTrimmingItem.action
    reason := adapterTrimmingItem.reason
    parameters := adapterTrimmingItem.parameters }

/-- C4 claim-side fixed rule table in its fixed order: each entry is a
condition and the recommendation it contributes. -/
def specRecommendationTable (m : FASTQMetrics) (flags : QualityFlags) :
    List (Bool × RecommendationItem) :=
  [(flags.low_quality_reads, specRuleQualityFiltering m),
   (flags.uneven_read_lengths, specRuleLengthFiltering m),
   (flags.poor_gc_content, specRuleContaminationCheck m),
   (decide (m.average_read_length > 50), specRuleAdapterTrimming)]

/-- C4 claim-side result: exactly the rules whose conditions hold, in
table order, never reordered or deduplicated. -/
def specRecommendations (m : FASTQMetrics) (flags : QualityFlags) :
    List RecommendationItem :=
  ((specRecommendationTable m flags).filter Prod.fst).map Prod.snd

/-- A metrics record with minimum read length 10 and maximum 100. -/
def bandMetrics : FASTQMetrics :=
  { total_reads := 0, total_bases := 0, average_read_length := 0,
    min_read_length := 10, max_read_length := 100, average_quality := 0,
    gc_content := 0, quality_distribution := [], length_distribution := [] }

/-- A metrics record with 100 reads and zeroes elsewhere, large enough
to reach the external-call handling of `_generate_ai_analysis`. -/
def failureMetrics : FASTQMetrics :=
  { total_reads := 100, total_bases := 0, average_read_length := 0,
    min_read_length := 0, max_read_length := 0, average_quality := 0,
    gc_content := 0, quality_distribution := [], length_distribution := [] }

theorem sumValues_bump (m : List (String × Nat)) (k : String) :
    sumValues (bump m k) = sumValues m + 1 := by
  induction m with
  | nil => simp [bump, sumValues]
  | cons hd tl ih =>
    obtain ⟨k2, v⟩ := hd
    simp only [sumValues] at ih
    by_cases h : k2 = k <;> simp [bump, h, sumValues] <;> omega

theorem lookupD_bump (m : List (String × Nat)) (k j : String) :
    lookupD (bump m k) j = lookupD m j + (if k = j then 1 else 0) := by
  induction m with
  | nil => simp [bump, lookupD]
  | cons hd tl ih =>
    obtain ⟨k2, v⟩ := hd
    by_cases h : k2 = k
    · subst h
      by_cases hj : k2 = j <;> simp [bump, lookupD, hj]
    · by_cases hj : k2 = j
      · subst hj
        have hkj : ¬ k = k2 := fun hh => h hh.symm
        simp [bump, lookupD, h, hkj]
      · simp [bump, lookupD, h, hj, ih]

theorem sumValues_foldl_bump {α : Type} (f : α → String) (xs : List α)
    (m : List (String × Nat)) :
    sumValues (xs.foldl (fun acc x => bump acc (f x)) m) = sumValues m + xs.length := by
  induction xs generalizing m with
  | nil => simp
  | cons hd tl ih => simp [List.foldl_cons, ih, sumValues_bump]; omega

theorem lookupD_foldl_bump {α : Type} (f : α → String) (xs : List α)
    (m : List (String × Nat)) (j : String) :
    lookupD (xs.foldl (fun acc x => bump acc (f x)) m) j
      = lookupD m j + xs.countP (fun x => f x == j) := by
  induction xs generalizing m with
  | nil => simp
  | cons hd tl ih =>
    simp only [List.foldl_cons, ih, lookupD_bump, List.countP_cons]
    by_cases h : f hd = j
    · simp [h]
      omega
    · simp [h]

theorem sumValues_nested_bump (reads : List FASTQRead)
    (m : List (String × Nat)) :
    sumValues (reads.foldl
        (fun acc r => r.quality_scores.foldl (fun m2 s => bump m2 (qualityLabel s)) acc) m)
      = sumValues m + (reads.map fun r => r.quality_scores.length).sum := by
  induction reads generalizing m with
  | nil => simp
  | cons hd tl ih =>
    have inner := sumValues_foldl_bump qualityLabel hd.quality_scores m
    simp only [List.foldl_cons, List.map_cons, List.sum_cons]
    rw [ih]
    simp only [List.foldl_map] at inner ⊢
    omega

theorem lookupD_nested_bump (reads : List FASTQRead)
    (m : List (String × Nat)) (j : String) :
    lookupD (reads.foldl
        (fun acc r => r.quality_scores.foldl (fun m2 s => bump m2 (qualityLabel s)) acc) m) j
      = lookupD m j
        + (reads.map fun r => r.quality_scores.countP (fun s => qualityLabel s == j)).sum := by
  induction reads generalizing m with
  | nil => simp
  | cons hd tl ih =>
    have inner := lookupD_foldl_bump qualityLabel hd.quality_scores m j
    simp only [List.foldl_cons, List.map_cons, List.sum_cons]
    rw [ih]
    simp only [List.foldl_map] at inner ⊢
    omega

/-- Claim-side quantity for C1: the mean of the pooled individual
quality scores across all reads, stated in the spec's words. -/
def pooledQualityMean (reads : List FASTQRead) : ℚ :=
  (reads.map fun r => (r.quality_scores.map (Nat.cast : Nat → ℚ)).sum).sum
    / ((reads.map fun r => r.quality_scores.length).sum : ℚ)

/-- Claim-side quantity for C8: one read's GC percentage per the
spec's words, the count of G and C bases matched case-insensitively,
divided by the read's length, times 100. -/
def specReadGCPercent (r : FASTQRead) : ℚ :=
  ((r.sequence.countP fun c => c.toUpper == 'G' || c.toUpper == 'C' : Nat) : ℚ)
    / (r.sequence.length : ℚ) * 100

/-- Two-read collection with unequal lengths and a flat quality of 30
everywhere: per-read mean of means and pooled mean coincide here. -/
def flatReads : List FASTQRead :=
  [⟨"r1", ['A', 'C'], [30, 30]⟩, ⟨"r2", ['A'], [30]⟩]

/-- Two-read collection with unequal lengths and spread qualities:
per-read mean of means is 25 while the pooled mean is 30. -/
def spreadReads : List FASTQRead :=
  [⟨"a", ['A'], [10]⟩, ⟨"b", ['A', 'C'], [40, 40]⟩]

/-- C1 (counterexample): the claim's clause "when reads have unequal
lengths these two quantities differ" fails on `flatReads`, whose two
reads have unequal lengths (2 and 1) while the per-read mean of means
and the pooled mean are both 30. -/
theorem c1_counterexample :
    flatReads.map FASTQRead.length = [2, 1] ∧ (2 : Nat) ≠ 1 ∧
    (calculate_metrics flatReads).average_quality = pooledQualityMean flatReads := by
  refine ⟨rfl, by omega, ?_⟩
  simp [calculate_metrics, flatReads, FASTQRead.average_quality, FASTQRead.length,
    pooledQualityMean]
  norm_num

/-- C1 (amended): for every non-empty read collection,
`calculate_metrics` returns as `average_quality` the arithmetic mean of
the per-read mean quality scores; on unequal-length collections this
can differ from the pooled mean — on `spreadReads` (lengths 1 and 2)
the returned per-read average is 25 while the pooled mean is 30. -/
theorem c1_mean_of_per_read_means :
    (∀ reads : List FASTQRead, reads ≠ [] →
      (calculate_metrics reads).average_quality
        = (reads.map FASTQRead.average_quality).sum / (reads.length : ℚ)) ∧
    spreadReads.map FASTQRead.length = [1, 2] ∧
    (calculate_metrics spreadReads).average_quality = 25 ∧
    pooledQualityMean spreadReads = 30 ∧
    (calculate_metrics spreadReads).average_quality ≠ pooledQualityMean spreadReads := by
  refine ⟨?_, rfl, ?_, ?_, ?_⟩
  · intro reads hne
    obtain ⟨hd, tl, rfl⟩ := List.exists_cons_of_ne_nil hne
    simp [calculate_metrics]
  · simp [calculate_metrics, spreadReads, FASTQRead.average_quality, FASTQRead.length]
    norm_num
  · simp [pooledQualityMean, spreadReads]
    norm_num
  · simp [calculate_metrics, spreadReads, FASTQRead.average_quality, FASTQRead.length,
      pooledQualityMean]
    norm_num

/-- C1 witness: the amended theorem applied to the concrete non-empty
collection `spreadReads`. -/
theorem c1_witness :
    (calculate_metrics spreadReads).average_quality
      = (spreadReads.map FASTQRead.average_quality).sum / (spreadReads.length : ℚ) :=
  c1_mean_of_per_read_means.1 spreadReads (by simp [spreadReads])

/-- C7: the empty read collection yields the all-zero metrics with
empty distributions, the assessment `failed`, and the flags computed by
the unmodified rules on the zero metrics: `low_quality_reads` and
`poor_gc_content` set, `uneven_read_lengths` clear. -/
theorem c7_empty_collection :
    calculate_metrics [] =
      { total_reads := 0, total_bases := 0, average_read_length := 0,
        min_read_length := 0, max_read_length := 0, average_quality := 0,
        gc_content := 0, quality_distribution := [], length_distribution := [] } ∧
    assess_overall_quality (calculate_metrics []) = .failed ∧
    identify_quality_flags (calculate_metrics []) =
      { low_quality_reads := true, uneven_read_lengths := false,
        poor_gc_content := true, adapter_contamination := false,
        overrepresented_sequences := false, low_complexity_regions := false } :=
  ⟨rfl, rfl, rfl⟩

/-- C9: the per-read derived values are total: on empty quality scores
`average_quality` is 0 and `min_quality` is 0, on an empty sequence
`gc_content` is 0; on non-degenerate input the fallible mean/min
succeed and the GC division has a non-zero denominator, so the guarded
divisions are unreachable in the degenerate cases. -/
theorem c9_degenerate_reads_total (r : FASTQRead) :
    (r.quality_scores = [] → r.average_quality = 0 ∧ r.min_quality = 0) ∧
    (r.sequence = [] → r.gc_content = 0) ∧
    (r.quality_scores ≠ [] →
      statisticsMean (r.quality_scores.map (Nat.cast : Nat → ℚ))
        = some r.average_quality ∧
      listMinOpt r.quality_scores = some r.min_quality) ∧
    (r.sequence ≠ [] → ((r.sequence.length : ℚ) ≠ 0 ∧
      r.gc_content = (((r.sequence.map Char.toUpper).count 'G'
        + (r.sequence.map Char.toUpper).count 'C' : Nat) : ℚ)
          / (r.sequence.length : ℚ) * 100)) := by
  obtain ⟨ident, seq, qs⟩ := r
  refine ⟨?_, ?_, ?_, ?_⟩
  · intro h
    subst h
    simp [FASTQRead.average_quality, FASTQRead.min_quality]
  · intro h
    subst h
    simp [FASTQRead.gc_content]
  · intro h
    have hq : qs ≠ [] := h
    have hm : (qs.map (Nat.cast : Nat → ℚ)) ≠ [] := by
      intro hmeq
      exact hq (List.map_eq_nil_iff.mp hmeq)
    constructor
    · unfold statisticsMean FASTQRead.average_quality
      dsimp only
      rw [if_neg hm, if_neg hq, List.length_map]
    · match qs, hq with
      | x :: rest, _ => simp [listMinOpt, FASTQRead.min_quality]
  · intro h
    have hs : seq ≠ [] := h
    constructor
    · simpa using List.length_eq_zero.not.mpr hs
    · simp [FASTQRead.gc_content, hs]

/-- C9 witness: the theorem applied to a read with no quality scores
and no sequence, and to a one-base read. -/
theorem c9_witness :
    (FASTQRead.mk "x" [] []).average_quality = 0 ∧
    (FASTQRead.mk "x" [] []).min_quality = 0 ∧
    (FASTQRead.mk "x" [] []).gc_content = 0 ∧
    statisticsMean ((FASTQRead.mk "y" ['G'] [30]).quality_scores.map
        (Nat.cast : Nat → ℚ))
      = some (FASTQRead.mk "y" ['G'] [30]).average_quality :=
  ⟨((c9_degenerate_reads_total (FASTQRead.mk "x" [] [])).1 rfl).1,
   ((c9_degenerate_reads_total (FASTQRead.mk "x" [] [])).1 rfl).2,
   (c9_degenerate_reads_total (FASTQRead.mk "x" [] [])).2.1 rfl,
   ((c9_degenerate_reads_total (FASTQRead.mk "y" ['G'] [30])).2.2.1
      (by simp)).1⟩

/-- C2: the quality assessment is a pure function of `average_quality`
with inclusive lower thresholds: excellent iff at least 35, good on
[30, 35), fair on [25, 30), poor on [20, 25), failed below 20. -/
theorem c2_thresholds (m : FASTQMetrics) :
    (assess_overall_quality m = .excellent ↔ 35 ≤ m.average_quality) ∧
    (assess_overall_quality m = .good ↔
      30 ≤ m.average_quality ∧ m.average_quality < 35) ∧
    (assess_overall_quality m = .fair ↔
      25 ≤ m.average_quality ∧ m.average_quality < 30) ∧
    (assess_overall_quality m = .poor ↔
      20 ≤ m.average_quality ∧ m.average_quality < 25) ∧
    (assess_overall_quality m = .failed ↔ m.average_quality < 20) ∧
    (∀ m2 : FASTQMetrics, m2.average_quality = m.average_quality →
      assess_overall_quality m2 = assess_overall_quality m) := by
  unfold assess_overall_quality
  refine ⟨?_, ?_, ?_, ?_, ?_, fun m2 h => by rw [h]⟩ <;>
    split_ifs with h1 h2 h3 h4 <;> simp_all <;> (intros; linarith)

/-- C2 witness: the boundary 35 maps to excellent, and the assessment
only looks at `average_quality`. -/
theorem c2_witness :
    assess_overall_quality (avgOnlyMetrics 35) = .excellent ∧
    assess_overall_quality { avgOnlyMetrics 35 with total_reads := 9 }
      = assess_overall_quality (avgOnlyMetrics 35) :=
  ⟨(c2_thresholds (avgOnlyMetrics 35)).1.mpr (by norm_num [avgOnlyMetrics]),
   (c2_thresholds (avgOnlyMetrics 35)).2.2.2.2.2
     { avgOnlyMetrics 35 with total_reads := 9 } rfl⟩

/-- The GC flag of the shared classifier is set exactly outside the
inclusive acceptable band [35, 65]. -/
theorem gc_flag_iff (g : ℚ) :
    (assess_gc_content g).2 = true ↔ (g < 35 ∨ 65 < g) := by
  unfold assess_gc_content GC_IDEAL_MIN GC_IDEAL_MAX GC_ACCEPTABLE_MIN GC_ACCEPTABLE_MAX
  split_ifs with h1 h2
  · simp only [Bool.false_eq_true, false_iff]
    push_neg
    exact ⟨by linarith [h1.1], by linarith [h1.2]⟩
  · simp only [Bool.false_eq_true, false_iff]
    push_neg
    exact ⟨h2.1, h2.2⟩
  · simp only [true_iff]
    push_neg at h2
    rcases lt_or_ge g 35 with hlt | hge
    · exact Or.inl hlt
    · exact Or.inr (lt_of_not_ge fun hle => (absurd (h2 hge) (not_lt.mpr hle)))

/-- C3: flag detection is exactly `average_quality < 25` for
`low_quality_reads`, a max-min spread above 50 for
`uneven_read_lengths`, and GC strictly outside the inclusive band
[35, 65] for `poor_gc_content`; the band edges 35, 40, 60, 65 do not
flag while 34.999 and 65.001 do. -/
theorem c3_flag_rules (m : FASTQMetrics) :
    ((identify_quality_flags m).low_quality_reads = true ↔
      m.average_quality < 25) ∧
    ((identify_quality_flags m).uneven_read_lengths = true ↔
      50 < m.max_read_length - m.min_read_length) ∧
    ((identify_quality_flags m).poor_gc_content = true ↔
      (m.gc_content < 35 ∨ 65 < m.gc_content)) ∧
    (identify_quality_flags (gcOnlyMetrics 35)).poor_gc_content = false ∧
    (identify_quality_flags (gcOnlyMetrics 40)).poor_gc_content = false ∧
    (identify_quality_flags (gcOnlyMetrics 60)).poor_gc_content = false ∧
    (identify_quality_flags (gcOnlyMetrics 65)).poor_gc_content = false ∧
    (identify_quality_flags (gcOnlyMetrics 34.999)).poor_gc_content = true ∧
    (identify_quality_flags (gcOnlyMetrics 65.001)).poor_gc_content = true := by
  refine ⟨?_, ?_, gc_flag_iff m.gc_content, ?_, ?_, ?_, ?_, ?_, ?_⟩
  · exact decide_eq_true_iff
  · exact decide_eq_true_iff
  · exact Bool.eq_false_iff.mpr fun ht =>
      (by norm_num : ¬(((35 : ℚ) < 35) ∨ (65 : ℚ) < 35)) ((gc_flag_iff 35).mp ht)
  · exact Bool.eq_false_iff.mpr fun ht =>
      (by norm_num : ¬(((40 : ℚ) < 35) ∨ (65 : ℚ) < 40)) ((gc_flag_iff 40).mp ht)
  · exact Bool.eq_false_iff.mpr fun ht =>
      (by norm_num : ¬(((60 : ℚ) < 35) ∨ (65 : ℚ) < 60)) ((gc_flag_iff 60).mp ht)
  · exact Bool.eq_false_iff.mpr fun ht =>
      (by norm_num : ¬(((65 : ℚ) < 35) ∨ (65 : ℚ) < 65)) ((gc_flag_iff 65).mp ht)
  · exact (gc_flag_iff 34.999).mpr (by norm_num)
  · exact (gc_flag_iff 65.001).mpr (by norm_num)

/-- Python `int()` truncation agrees with the floor on non-negative
values. -/
theorem ratTrunc_eq_floor (q : ℚ) (h : 0 ≤ q) : ratTrunc q = ⌊q⌋ := by
  unfold ratTrunc
  rw [if_neg (not_lt.mpr h)]

/-- C4: `_generate_recommendations` produces exactly the rules of the
fixed four-entry table whose conditions hold, in table order, with the
claimed categories, priorities and parameters (stated for the
non-negative average read lengths every metrics computation yields,
where Python's `int()` truncation is the claimed floor). -/
theorem c4_recommendation_table (m : FASTQMetrics) (flags : QualityFlags)
    (h : 0 ≤ m.average_read_length) :
    generate_recommendations m flags = specRecommendations m flags := by
  have htr : ratTrunc (m.average_read_length * (8/10))
      = ⌊m.average_read_length * (8/10)⌋ :=
    ratTrunc_eq_floor _ (by positivity)
  obtain ⟨b1, b2, b3, b4, b5, b6⟩ := flags
  cases b1 <;> cases b2 <;> cases b3 <;> by_cases h50 : m.average_read_length > 50 <;>
    simp [generate_recommendations, specRecommendations, specRecommendationTable,
      List.filter_cons, h50, qualityFilteringItem, specRuleQualityFiltering,
      lengthFilteringItem, specRuleLengthFiltering, contaminationCheckItem,
      specRuleContaminationCheck, adapterTrimmingItem, specRuleAdapterTrimming,
      htr, GC_IDEAL_MIN, GC_IDEAL_MAX, GC_ACCEPTABLE_MIN, GC_ACCEPTABLE_MAX]

/-- C4 witness: the table refinement at a concrete metrics record with
all three flags set and average read length 60. -/
theorem c4_witness :
    generate_recommendations { gcOnlyMetrics 20 with average_read_length := 60 }
        { low_quality_reads := true, uneven_read_lengths := true,
          poor_gc_content := true }
      = specRecommendations { gcOnlyMetrics 20 with average_read_length := 60 }
        { low_quality_reads := true, uneven_read_lengths := true,
          poor_gc_content := true } :=
  c4_recommendation_table _ _ (by norm_num [gcOnlyMetrics])

/-- In the recommendation list, the "Length Filtering" entry appears
exactly when the `uneven_read_lengths` flag is set. -/
theorem filter_length_filtering (m : FASTQMetrics) (flags : QualityFlags) :
    (generate_recommendations m flags).filter
        (fun r => r.category == "Length Filtering")
      = if flags.uneven_read_lengths then [lengthFilteringItem m] else [] := by
  obtain ⟨b1, b2, b3, b4, b5, b6⟩ := flags
  cases b1 <;> cases b2 <;> cases b3 <;> by_cases h50 : m.average_read_length > 50 <;>
    simp [generate_recommendations, List.filter_append, List.filter_cons, h50,
      qualityFilteringItem, lengthFilteringItem, contaminationCheckItem,
      adapterTrimmingItem]

/-- C10: the Length Filtering recommendation is emitted exactly when
`uneven_read_lengths` holds, i.e. `max_read_length - min_read_length >
50`, and then its parameters form a non-empty band:
`min_read_length + 10 < max_read_length - 10`. -/
theorem c10_length_band (m : FASTQMetrics) :
    ((identify_quality_flags m).uneven_read_lengths = false →
      (generate_recommendations m (identify_quality_flags m)).filter
          (fun r => r.category == "Length Filtering") = []) ∧
    ((identify_quality_flags m).uneven_read_lengths = true →
      (generate_recommendations m (identify_quality_flags m)).filter
          (fun r => r.category == "Length Filtering") = [lengthFilteringItem m] ∧
      (lengthFilteringItem m).parameters =
        [("min_length", .int (m.min_read_length + 10)),
         ("max_length", .int (m.max_read_length - 10))] ∧
      m.min_read_length + 10 < m.max_read_length - 10) := by
  constructor
  · intro hfalse
    rw [filter_length_filtering, hfalse, if_neg]
    simp
  · intro htrue
    have hspread : 50 < m.max_read_length - m.min_read_length := by
      have := of_decide_eq_true htrue
      exact this
    refine ⟨?_, rfl, by omega⟩
    rw [filter_length_filtering, htrue, if_pos rfl]

/-- C10 witness: the band property at `bandMetrics`, whose spread 90
exceeds 50. -/
theorem c10_witness :
    (generate_recommendations bandMetrics (identify_quality_flags bandMetrics)).filter
        (fun r => r.category == "Length Filtering")
      = [lengthFilteringItem bandMetrics] ∧
    bandMetrics.min_read_length + 10 < bandMetrics.max_read_length - 10 :=
  ⟨((c10_length_band bandMetrics).2 rfl).1,
   ((c10_length_band bandMetrics).2 rfl).2.2⟩

/-- C6: for a non-empty collection whose reads carry one quality score
per base, the quality distribution counts every individual score in
the width-5 bucket named by `qualityLabel` and its counts sum to
`total_bases`, and the length distribution counts every read length in
the width-50 bucket named by `lengthLabel` and its counts sum to
`total_reads`. -/
theorem c6_distributions (reads : List FASTQRead) (hne : reads ≠ [])
    (hlen : ∀ r ∈ reads, r.quality_scores.length = r.sequence.length) :
    sumValues (calculate_metrics reads).quality_distribution
      = (calculate_metrics reads).total_bases ∧
    sumValues (calculate_metrics reads).length_distribution
      = (calculate_metrics reads).total_reads ∧
    (∀ lab : String, lookupD (calculate_metrics reads).quality_distribution lab
      = (reads.map fun r =>
          r.quality_scores.countP fun s => qualityLabel s == lab).sum) ∧
    (∀ lab : String, lookupD (calculate_metrics reads).length_distribution lab
      = reads.countP fun r => lengthLabel r.length == lab) := by
  obtain ⟨hd, tl, rfl⟩ := List.exists_cons_of_ne_nil hne
  refine ⟨?_, ?_, ?_, ?_⟩
  · simp only [calculate_metrics]
    rw [if_neg hne]
    dsimp only
    rw [sumValues_nested_bump]
    have hcong : (hd :: tl).map (fun r => r.quality_scores.length)
        = (hd :: tl).map FASTQRead.length :=
      List.map_congr_left fun r hr => hlen r hr
    simp [sumValues, hcong]
  · simp only [calculate_metrics]
    rw [if_neg hne]
    dsimp only
    rw [sumValues_foldl_bump]
    simp [sumValues]
  · intro lab
    simp only [calculate_metrics]
    rw [if_neg hne]
    dsimp only
    rw [lookupD_nested_bump]
    simp [lookupD]
  · intro lab
    simp only [calculate_metrics]
    rw [if_neg hne]
    dsimp only
    rw [lookupD_foldl_bump, List.countP_map]
    simp only [lookupD, Nat.zero_add]
    rfl

/-- C6 witness: the bucket totals at the concrete two-read collection
`flatReads`. -/
theorem c6_witness :
    sumValues (calculate_metrics flatReads).quality_distribution
      = (calculate_metrics flatReads).total_bases ∧
    sumValues (calculate_metrics flatReads).length_distribution
      = (calculate_metrics flatReads).total_reads :=
  ⟨(c6_distributions flatReads (by decide) (by decide)).1,
   (c6_distributions flatReads (by decide) (by decide)).2.1⟩

/-- Counting G then C on the upper-cased sequence equals one
case-insensitive count of G-or-C. -/
theorem countGC (l : List Char) :
    (l.map Char.toUpper).count 'G' + (l.map Char.toUpper).count 'C'
      = l.countP (fun c => c.toUpper == 'G' || c.toUpper == 'C') := by
  induction l with
  | nil => simp
  | cons hd tl ih =>
    simp only [List.map_cons, List.count_cons, List.countP_cons]
    by_cases h1 : hd.toUpper = 'G' <;> by_cases h2 : hd.toUpper = 'C' <;>
      simp [h1, h2, ih] <;> omega

/-- The source's per-read GC value equals the claim's formula. -/
theorem gc_content_eq_spec (r : FASTQRead) : r.gc_content = specReadGCPercent r := by
  unfold FASTQRead.gc_content specReadGCPercent
  by_cases h : r.sequence = []
  · simp [h]
  · rw [if_neg h]
    dsimp only
    rw [countGC]

/-- C8: for every non-empty collection, `gc_content` is the equal-weight
arithmetic mean over reads of the per-read GC percentage, each being the
case-insensitive G/C count over the read's length times 100. -/
theorem c8_gc_mean_of_per_read (reads : List FASTQRead) (hne : reads ≠ []) :
    (calculate_metrics reads).gc_content
      = (reads.map specReadGCPercent).sum / (reads.length : ℚ) := by
  obtain ⟨hd, tl, rfl⟩ := List.exists_cons_of_ne_nil hne
  simp only [calculate_metrics]
  rw [if_neg hne]
  dsimp only
  rw [List.map_congr_left fun r _ => gc_content_eq_spec r]

/-- C8 witness: the GC mean at the concrete collection `flatReads`. -/
theorem c8_witness :
    (calculate_metrics flatReads).gc_content
      = (flatReads.map specReadGCPercent).sum / (flatReads.length : ℚ) :=
  c8_gc_mean_of_per_read flatReads (by decide)

/-- C5 (counterexample): when the external narrative call raises, the
substituted narrative is the fixed "AI analysis unavailable" result
with no insights, which differs from the template narrative the fast
path produces for the same metrics, assessment and recommendations
(three insights): the claimed equality of the two fails. -/
theorem c5_counterexample :
    (generate_ai_analysis failureMetrics .failed .exn).insights.length = 0 ∧
    (generate_fast_analysis failureMetrics .failed []).insights.length = 3 ∧
    generate_ai_analysis failureMetrics .failed .exn
      ≠ generate_fast_analysis failureMetrics .failed [] := by
  refine ⟨rfl, rfl, fun h => ?_⟩
  exact absurd (congrArg (fun nr => List.length nr.insights) h) (by decide)

/-- C5 (amended): on collaborator failure `_generate_ai_analysis`
substitutes a fixed deterministic fallback narrative — summary
"AI analysis unavailable" with no insights — and on malformed JSON it
uses the cleaned response text as the summary with no insights; in both
cases a result is returned, never a propagated failure, but it is not
the fast-path template narrative. -/
theorem c5_failure_fallback (m : FASTQMetrics) (qa : QualityAssessment)
    (h : 10 ≤ m.total_reads) :
    generate_ai_analysis m qa .exn =
      { summary := "AI analysis unavailable", insights := [],
        suitability := "Manual review recommended" } ∧
    (∀ cleaned : String, generate_ai_analysis m qa (.notJSON cleaned) =
      { summary := cleaned, insights := [],
        suitability := "Analysis available in summary" }) := by
  have hlt : ¬ m.total_reads < 10 := by omega
  constructor
  · simp [generate_ai_analysis, hlt]
  · intro cleaned
    simp [generate_ai_analysis, hlt]

/-- C5 witness: the fixed fallback at the concrete `failureMetrics`. -/
theorem c5_witness :
    generate_ai_analysis failureMetrics .failed .exn =
      { summary := "AI analysis unavailable", insights := [],
        suitability := "Manual review recommended" } :=
  (c5_failure_fallback failureMetrics .failed (by decide)).1
